import Mathlib

/-!
Verification of the `arta` Transmission RPC client (src/src/lib.rs).

The Rust source is shallowly embedded: serde serialization of the request
envelope and of the per-method argument structs is modelled as functions
into an inductive JSON value type, and `Client::request` (the transport /
session engine) is modelled as a pure loop over a trace of daemon
responses, logging each HTTP send together with the session header it
carried.
-/

namespace Arta

/-- JSON values, as produced by serde_json. -/
inductive Json where
  | null
  | str (s : String)
  | num (n : Int)
  | bool (b : Bool)
  | arr (xs : List Json)
  | obj (fields : List (String × Json))

/-- Look up a key in a JSON object (first occurrence); `none` for
non-objects or missing keys.  Mirrors serde field lookup. -/
def Json.getField : Json → String → Option Json
  | .obj fs, k => (fs.find? (fun p => p.1 = k)).map (fun p => p.2)
  | _, _ => none

/-- Whether a JSON object carries a given key. -/
def Json.hasKey : Json → String → Bool
  | .obj fs, k => fs.any (fun p => p.1 = k)
  | _, _ => false

/-- A field that serde skips when the option is `None`
(`skip_serializing_if = "Option::is_none"`, also inserted on every
`Option` field by `#[skip_serializing_none]`). -/
def optField (k : String) : Option Json → List (String × Json)
  | none => []
  | some j => [(k, j)]

/-- `enum Method`, with its serde renames. -/
inductive Method where
  | sessionGet
  | torrentAdd
  | torrentGet
  deriving DecidableEq, Repr

/-- Serialization of `Method` (`#[serde(rename = "...")]` on each variant). -/
def Method.serialize : Method → Json
  | .sessionGet => .str "session-get"
  | .torrentAdd => .str "torrent-add"
  | .torrentGet => .str "torrent-get"

/-- `enum TorrentGetFields` (`rename_all = "camelCase"`, with the
`peer-limit` exception). -/
inductive TorrentGetFields where
  | error
  | errorString
  | eta
  | hashString
  | id
  | leftUntilDone
  | percentDone
  | name
  | rateDownload
  | sizeWhenDone
  | totalSize
  | status
  | peerLimit
  deriving DecidableEq, Repr

/-- Serialization of `TorrentGetFields`. -/
def TorrentGetFields.serialize : TorrentGetFields → Json
  | .error => .str "error"
  | .errorString => .str "errorString"
  | .eta => .str "eta"
  | .hashString => .str "hashString"
  | .id => .str "id"
  | .leftUntilDone => .str "leftUntilDone"
  | .percentDone => .str "percentDone"
  | .name => .str "name"
  | .rateDownload => .str "rateDownload"
  | .sizeWhenDone => .str "sizeWhenDone"
  | .totalSize => .str "totalSize"
  | .status => .str "status"
  | .peerLimit => .str "peer-limit"

/-- `struct TorrentGetArgs` (u32 ids modelled as `Nat`). -/
structure TorrentGetArgs where
  fields : Option (List TorrentGetFields)
  ids : Option (List Nat)
  deriving Repr

/-- Serialization of `TorrentGetArgs`: the struct carries
`#[skip_serializing_none]` (and an explicit `skip_serializing_if` on
`fields`), so `None` fields are omitted. -/
def TorrentGetArgs.serialize (a : TorrentGetArgs) : Json :=
  .obj (optField "fields" (a.fields.map (fun fs => .arr (fs.map TorrentGetFields.serialize)))
    ++ optField "ids" (a.ids.map (fun is => .arr (is.map (fun i => .num i)))))

/-- `struct TorrentAddArgs` (`rename_all = "kebab-case"`,
`#[skip_serializing_none]`; u32 modelled as `Nat`). -/
structure TorrentAddArgs where
  cookies : Option String
  download_dir : Option String
  filename : Option String
  labels : Option String
  metainfo : Option String
  paused : Option String
  peer_limit : Option Nat
  bandwidth_priority : Option Nat
  files_wanted : Option (List Nat)
  files_unwanted : Option (List Nat)
  priority_high : Option (List Nat)
  priority_low : Option (List Nat)
  priority_normal : Option (List Nat)
  deriving Repr

/-- `TorrentAddArgs::default()`: every field `None`. -/
def TorrentAddArgs.default : TorrentAddArgs :=
  ⟨none, none, none, none, none, none, none, none, none, none, none, none, none⟩

/-- Serialization of `TorrentAddArgs`: kebab-case keys, `None` fields
omitted via `#[skip_serializing_none]`. -/
def TorrentAddArgs.serialize (a : TorrentAddArgs) : Json :=
  .obj (optField "cookies" (a.cookies.map .str)
    ++ optField "download-dir" (a.download_dir.map .str)
    ++ optField "filename" (a.filename.map .str)
    ++ optField "labels" (a.labels.map .str)
    ++ optField "metainfo" (a.metainfo.map .str)
    ++ optField "paused" (a.paused.map .str)
    ++ optField "peer-limit" (a.peer_limit.map (fun n => .num n))
    ++ optField "bandwidth-priority" (a.bandwidth_priority.map (fun n => .num n))
    ++ optField "files-wanted" (a.files_wanted.map (fun ns => .arr (ns.map (fun n => .num n))))
    ++ optField "files-unwanted" (a.files_unwanted.map (fun ns => .arr (ns.map (fun n => .num n))))
    ++ optField "priority-high" (a.priority_high.map (fun ns => .arr (ns.map (fun n => .num n))))
    ++ optField "priority-low" (a.priority_low.map (fun ns => .arr (ns.map (fun n => .num n))))
    ++ optField "priority-normal" (a.priority_normal.map (fun ns => .arr (ns.map (fun n => .num n)))))

/-- `enum SessionGetFields`, with its serde renames. -/
inductive SessionGetFields where
  | rpcVersion
  | configDir
  deriving DecidableEq, Repr

/-- Serialization of `SessionGetFields`. -/
def SessionGetFields.serialize : SessionGetFields → Json
  | .rpcVersion => .str "rpc-version"
  | .configDir => .str "config-dir"

/-- `struct SessionGetArgs`. -/
structure SessionGetArgs where
  fields : Option (List SessionGetFields)
  deriving Repr

/-- Serialization of `SessionGetArgs`: the single field carries
`#[serde(skip_serializing_if = "Option::is_none")]`. -/
def SessionGetArgs.serialize (a : SessionGetArgs) : Json :=
  .obj (optField "fields" (a.fields.map (fun fs => .arr (fs.map SessionGetFields.serialize))))

/-- `enum Args` (`#[serde(untagged)]`): serialization is that of the
payload itself. -/
inductive Args where
  | sessionGet (a : SessionGetArgs)
  | torrentAdd (a : TorrentAddArgs)
  | torrentGet (a : TorrentGetArgs)
  deriving Repr

/-- Serialization of `Args` (untagged). -/
def Args.serialize : Args → Json
  | .sessionGet a => a.serialize
  | .torrentAdd a => a.serialize
  | .torrentGet a => a.serialize

/-- `struct TransmissionRequest { method, arguments: Option<Args> }`.
The struct has a plain `#[derive(Serialize)]` with no skip attribute. -/
structure TransmissionRequest where
  method : Method
  arguments : Option Args

/-- Serialization of `TransmissionRequest`.  serde's default for a plain
`Option` field (no `skip_serializing_if`) is to emit the key with JSON
`null` when the option is `None`. -/
def TransmissionRequest.serialize (r : TransmissionRequest) : Json :=
  .obj [("method", r.method.serialize),
        ("arguments", match r.arguments with
          | none => .null
          | some a => a.serialize)]

/-- `struct TransmissionResponse<ResponseArgs> { arguments, result }`. -/
structure TransmissionResponse (β : Type) where
  arguments : β
  result : String

/-- Deserialization of `TransmissionResponse<T>` (serde derive): both
fields must be present, `result` must be a string, `arguments` must
decode via `T`'s own deserializer. -/
def decodeEnvelope {β : Type} (dec : Json → Except String β) (j : Json) :
    Except String (TransmissionResponse β) :=
  match j.getField "arguments", j.getField "result" with
  | some a, some (.str r) => (dec a).map (fun args => ⟨args, r⟩)
  | _, _ => .error "invalid response envelope"

/-- `struct SessionGet` (result-argument shape; kebab-case wire names). -/
structure SessionGet where
  rpc_version : Option Nat
  config_dir : Option String

/-- serde decode of an optional `u32` field. -/
def decodeOptNat : Option Json → Except String (Option Nat)
  | none => .ok none
  | some (.num n) => if n < 0 then .error "invalid value" else .ok (some n.toNat)
  | some _ => .error "invalid type"

/-- serde decode of an optional string field. -/
def decodeOptStr : Option Json → Except String (Option String)
  | none => .ok none
  | some (.str s) => .ok (some s)
  | some _ => .error "invalid type"

/-- Deserialization of `SessionGet`: both fields optional, absent keys
give `None`. -/
def SessionGet.decode (j : Json) : Except String SessionGet :=
  match j with
  | .obj _ =>
    (decodeOptNat (j.getField "rpc-version")).bind (fun rv =>
      (decodeOptStr (j.getField "config-dir")).map (fun cd => ⟨rv, cd⟩))
  | _ => .error "invalid type"

/-- A raw HTTP header value: `to_str()` succeeds exactly on visible
ASCII. -/
inductive HeaderVal where
  | ascii (s : String)
  | invalid
  deriving DecidableEq, Repr

/-- What one `request.send().await` observes, as distinguished by
`Client::request`: a transport error, a `409 Conflict` carrying an
optional `X-Transmission-Session-id` header, or any other status with a
response body. -/
inductive SendResult (β : Type) where
  | fail (e : String)
  | conflict (header : Option HeaderVal)
  | other (body : Json)

/-- One HTTP POST as sent by the engine: target URL, the
`X-Transmission-Session-id` header if attached, and the serialized
envelope body. -/
structure SentRequest where
  url : String
  sessionHeader : Option String
  body : Json

/-- The outcome of `Client::request`, the spec's error taxonomy made
explicit.  In the source all three errors are `Box<dyn Error>` values:
transport and decode errors are propagated unchanged, exhaustion is a
fixed format string.  `panicked` models the `unwrap`/index panics in the
conflict branch. -/
inductive InvokeResult (β : Type) where
  | ok (r : TransmissionResponse β)
  | transportFailure (e : String)
  | malformedResponse (e : String)
  | authRetriesExhausted (msg : String)
  | panicked

/-- `const RETRIES: u8 = 5;` -/
def RETRIES : Nat := 5

/-- The exhaustion error message built by `format!` in the source. -/
def exhaustedMsg : String :=
  "Failed after " ++ toString RETRIES ++ " retries to send request to transmission server"

/-- Result of one call together with the chronological log of HTTP sends
and the session token left in the client's `RwLock`. -/
structure InvokeOutput (β : Type) where
  result : InvokeResult β
  sent : List SentRequest
  finalSessionId : Option String

/-- The `for _retry in 0..RETRIES` loop of `Client::request`.  `fuel` is
the remaining iterations, `i` the index of the next attempt (used to
look up the daemon's response for that attempt), `sid` the current
content of the session-id lock, `log` the sends so far (newest first). -/
def requestLoop {β : Type} (url : String) (data : Json)
    (dec : Json → Except String β) (responses : Nat → SendResult β) :
    Nat → Nat → Option String → List SentRequest → InvokeOutput β
  | 0, _, sid, log =>
    ⟨.authRetriesExhausted exhaustedMsg, log.reverse, sid⟩
  | fuel + 1, i, sid, log =>
    let req : SentRequest := ⟨url, sid, data⟩
    match responses i with
    | .fail e => ⟨.transportFailure e, (req :: log).reverse, sid⟩
    | .conflict header =>
      match header with
      | some (.ascii s) => requestLoop url data dec responses fuel (i + 1) (some s) (req :: log)
      | some .invalid => ⟨.panicked, (req :: log).reverse, sid⟩
      | none => ⟨.panicked, (req :: log).reverse, sid⟩
    | .other body =>
      match decodeEnvelope dec body with
      | .error e => ⟨.malformedResponse e, (req :: log).reverse, sid⟩
      | .ok r => ⟨.ok r, (req :: log).reverse, sid⟩

/-- `struct Client`: URL plus the `RwLock<Option<String>>` session token
(its content, since the embedding is sequential). -/
structure Client where
  url : String
  sessionId : Option String

/-- `Client::new`: takes only the URL; the token starts out `None`. -/
def Client.new (url : String) : Client :=
  ⟨url, none⟩

/-- `Client::request`: serialize the envelope once, then run the retry
loop with `RETRIES` iterations of fuel, starting from the client's
current token.  The daemon's behaviour per attempt is the `responses`
trace. -/
def Client.request {β : Type} (c : Client) (method : Method) (arguments : Option Args)
    (dec : Json → Except String β) (responses : Nat → SendResult β) : InvokeOutput β :=
  requestLoop c.url (TransmissionRequest.serialize ⟨method, arguments⟩) dec responses
    RETRIES 0 c.sessionId []

section EngineLemmas

variable {β : Type} (url : String) (data : Json) (dec : Json → Except String β)
variable (responses : Nat → SendResult β)

/-- One loop iteration whose send fails: the error is returned at once. -/
lemma requestLoop_fail {i : Nat} {e : String} (h : responses i = .fail e)
    (fuel : Nat) (sid : Option String) (log : List SentRequest) :
    requestLoop url data dec responses (fuel + 1) i sid log
      = ⟨.transportFailure e, (⟨url, sid, data⟩ :: log).reverse, sid⟩ := by
  simp [requestLoop, h]

/-- One loop iteration answered `409` with a convertible header: the token
is installed and the loop continues. -/
lemma requestLoop_validConflict {i : Nat} {s : String}
    (h : responses i = .conflict (some (.ascii s)))
    (fuel : Nat) (sid : Option String) (log : List SentRequest) :
    requestLoop url data dec responses (fuel + 1) i sid log
      = requestLoop url data dec responses fuel (i + 1) (some s) (⟨url, sid, data⟩ :: log) := by
  simp [requestLoop, h]

/-- One loop iteration answered `409` without a usable header: the
`unwrap`/index panic. -/
lemma requestLoop_badConflict {i : Nat} {hv : Option HeaderVal}
    (h : responses i = .conflict hv) (hbad : hv = none ∨ hv = some .invalid)
    (fuel : Nat) (sid : Option String) (log : List SentRequest) :
    requestLoop url data dec responses (fuel + 1) i sid log
      = ⟨.panicked, (⟨url, sid, data⟩ :: log).reverse, sid⟩ := by
  rcases hbad with hb | hb <;> subst hb <;> simp [requestLoop, h]

/-- One loop iteration answered with a non-`409` status: the body is
decoded and the loop ends either way. -/
lemma requestLoop_other {i : Nat} {body : Json} (h : responses i = .other body)
    (fuel : Nat) (sid : Option String) (log : List SentRequest) :
    requestLoop url data dec responses (fuel + 1) i sid log
      = match decodeEnvelope dec body with
        | .error e => ⟨.malformedResponse e, (⟨url, sid, data⟩ :: log).reverse, sid⟩
        | .ok r => ⟨.ok r, (⟨url, sid, data⟩ :: log).reverse, sid⟩ := by
  simp [requestLoop, h]

/-- Running through `k` consecutive valid-conflict answers consumes `k`
fuel, sends `k` requests and leaves the loop at attempt `i + k` with some
token installed. -/
lemma requestLoop_skip (t : Nat → String) :
    ∀ (k fuel i : Nat) (sid : Option String) (log : List SentRequest),
      (∀ j, j < k → responses (i + j) = .conflict (some (.ascii (t (i + j))))) →
      ∃ (log' : List SentRequest) (sid' : Option String), log'.length = k ∧
        requestLoop url data dec responses (fuel + k) i sid log
          = requestLoop url data dec responses fuel (i + k) sid' (log' ++ log) := by
  intro k
  induction k with
  | zero => exact fun fuel i sid log _ => ⟨[], sid, rfl, by simp⟩
  | succ k ih =>
    intro fuel i sid log hc
    have h0 : responses i = .conflict (some (.ascii (t i))) := by
      simpa using hc 0 (Nat.succ_pos k)
    obtain ⟨log', sid', hl, hrec⟩ := ih fuel (i + 1) (some (t i)) (⟨url, sid, data⟩ :: log)
      (fun j hj => by
        have h := hc (j + 1) (by omega)
        rw [show i + (j + 1) = i + 1 + j by omega] at h
        exact h)
    refine ⟨log' ++ [⟨url, sid, data⟩], sid', by simp [hl], ?_⟩
    have e1 : fuel + (k + 1) = (fuel + k) + 1 := rfl
    rw [e1, requestLoop_validConflict url data dec responses h0 (fuel + k) sid log, hrec,
      show i + 1 + k = i + (k + 1) by omega]
    simp

/-- If every `409` in the trace carries a convertible header, the loop
never panics. -/
lemma requestLoop_noPanic
    (hgood : ∀ i hv, responses i = .conflict hv → ∃ s, hv = some (.ascii s)) :
    ∀ (fuel i : Nat) (sid : Option String) (log : List SentRequest),
      (requestLoop url data dec responses fuel i sid log).result ≠ .panicked := by
  intro fuel
  induction fuel with
  | zero => intro i sid log; simp [requestLoop]
  | succ fuel ih =>
    intro i sid log
    cases hr : responses i with
    | fail e => simp [requestLoop, hr]
    | other body =>
      rw [requestLoop_other url data dec responses hr fuel sid log]
      cases hdec : decodeEnvelope dec body <;> simp [hdec]
    | conflict hv =>
      obtain ⟨s, rfl⟩ := hgood i hv hr
      rw [requestLoop_validConflict url data dec responses hr fuel sid log]
      exact ih (i + 1) (some s) (⟨url, sid, data⟩ :: log)

/-- The loop's outcome never depends on the serialized body, the URL or
the log so far: those only feed the send log. -/
lemma requestLoop_result_congr :
    ∀ (fuel i : Nat) (sid : Option String) (u₁ u₂ : String) (d₁ d₂ : Json)
      (log₁ log₂ : List SentRequest),
      (requestLoop u₁ d₁ dec responses fuel i sid log₁).result
        = (requestLoop u₂ d₂ dec responses fuel i sid log₂).result := by
  intro fuel
  induction fuel with
  | zero => intros; rfl
  | succ fuel ih =>
    intro i sid u₁ u₂ d₁ d₂ log₁ log₂
    cases hr : responses i with
    | fail e => simp [requestLoop, hr]
    | other body =>
      rw [requestLoop_other u₁ d₁ dec responses hr fuel sid log₁,
        requestLoop_other u₂ d₂ dec responses hr fuel sid log₂]
      cases hdec : decodeEnvelope dec body <;> simp [hdec]
    | conflict hv =>
      match hv with
      | none => simp [requestLoop, hr]
      | some .invalid => simp [requestLoop, hr]
      | some (.ascii s) =>
        rw [requestLoop_validConflict u₁ d₁ dec responses hr fuel sid log₁,
          requestLoop_validConflict u₂ d₂ dec responses hr fuel sid log₂]
        exact ih (i + 1) (some s) _ _ _ _ _ _

end EngineLemmas

/-- A field of `optField` carries key `k` exactly when the option is set
and the keys agree. -/
lemma any_optField (k q : String) (v : Option Json) :
    (optField k v).any (fun p => p.1 = q) = (decide (k = q) && v.isSome) := by
  cases v <;> simp [optField]

/-- C4 counterexample: for a request with no argument payload (method
`session-get`, `arguments: None`), the serialized wire form does carry
the `"arguments"` key, bound to JSON `null` — `TransmissionRequest` has
no skip-serializing attribute, so serde emits `None` as `null`. -/
theorem C4_counterexample :
    TransmissionRequest.serialize ⟨.sessionGet, none⟩
      = .obj [("method", .str "session-get"), ("arguments", .null)]
  ∧ (TransmissionRequest.serialize ⟨.sessionGet, none⟩).hasKey "arguments" = true :=
  ⟨rfl, rfl⟩

/-- C4 (amended): for every request envelope whose method descriptor
carries no argument payload, the serialized wire form includes the
`"arguments"` key bound to JSON `null`; the omission rule applies only to
optional fields inside the argument payloads, not to the envelope's
top-level `arguments` field. -/
theorem C4_absent_arguments_serialized_as_null (m : Method) :
    (TransmissionRequest.serialize ⟨m, none⟩).getField "arguments" = some .null := by
  cases m <;> rfl

/-- C5: for each of the three method argument payloads, every optional
field left unset is omitted from the serialized body — the key is
present exactly when the field is set, so an unset field is never
emitted (as `null` or otherwise). -/
theorem C5_unset_fields_omitted (sg : SessionGetArgs) (tg : TorrentGetArgs)
    (ta : TorrentAddArgs) :
    (sg.serialize.hasKey "fields" = sg.fields.isSome)
  ∧ (tg.serialize.hasKey "fields" = tg.fields.isSome)
  ∧ (tg.serialize.hasKey "ids" = tg.ids.isSome)
  ∧ (ta.serialize.hasKey "cookies" = ta.cookies.isSome)
  ∧ (ta.serialize.hasKey "download-dir" = ta.download_dir.isSome)
  ∧ (ta.serialize.hasKey "filename" = ta.filename.isSome)
  ∧ (ta.serialize.hasKey "labels" = ta.labels.isSome)
  ∧ (ta.serialize.hasKey "metainfo" = ta.metainfo.isSome)
  ∧ (ta.serialize.hasKey "paused" = ta.paused.isSome)
  ∧ (ta.serialize.hasKey "peer-limit" = ta.peer_limit.isSome)
  ∧ (ta.serialize.hasKey "bandwidth-priority" = ta.bandwidth_priority.isSome)
  ∧ (ta.serialize.hasKey "files-wanted" = ta.files_wanted.isSome)
  ∧ (ta.serialize.hasKey "files-unwanted" = ta.files_unwanted.isSome)
  ∧ (ta.serialize.hasKey "priority-high" = ta.priority_high.isSome)
  ∧ (ta.serialize.hasKey "priority-low" = ta.priority_low.isSome)
  ∧ (ta.serialize.hasKey "priority-normal" = ta.priority_normal.isSome) := by
  refine ⟨?_, ?_, ?_, ?_, ?_, ?_, ?_, ?_, ?_, ?_, ?_, ?_, ?_, ?_, ?_, ?_⟩ <;>
    simp [SessionGetArgs.serialize, TorrentGetArgs.serialize, TorrentAddArgs.serialize,
      Json.hasKey, List.any_append, any_optField] <;>
    first
    | (cases h : ta.peer_limit <;> simp [h])
    | (cases h : ta.bandwidth_priority <;> simp [h])

/-- C1: a fresh client (token never set) attaches no session header on
its first POST; when that first attempt is answered `409` with a
disclosed token and the second answer is any non-`409` response, the
engine installs the token and performs exactly one more send, carrying
exactly that token — two sends in total, headers `[none, some t]`. -/
theorem C1_fresh_client_handshake {β : Type} (c : Client) (m : Method) (args : Option Args)
    (dec : Json → Except String β) (responses : Nat → SendResult β) (t : String) (body : Json)
    (hfresh : c.sessionId = none)
    (h0 : responses 0 = .conflict (some (.ascii t)))
    (h1 : responses 1 = .other body) :
    ((c.request m args dec responses).sent.map (fun r => r.sessionHeader) = [none, some t])
  ∧ (c.request m args dec responses).finalSessionId = some t := by
  unfold Client.request
  rw [hfresh, show RETRIES = 3 + 1 + 1 from rfl,
    requestLoop_validConflict _ _ dec responses h0 (3 + 1) none [],
    requestLoop_other _ _ dec responses h1 3 (some t) _]
  cases hdec : decodeEnvelope dec body <;> simp [hdec]

/-- C1 witness: the spec's end-to-end scenario — fresh client, first
answer `409` disclosing `tok1`, second answer `200` with a well-formed
body: the two sends carry headers `none` then `some tok1`, and `tok1` is
left installed. -/
theorem C1_witness :
    (((Client.new "http://127.0.0.1:9091/transmission/rpc").request .sessionGet
        (some (.sessionGet ⟨none⟩)) SessionGet.decode
        (fun i => if i = 0 then .conflict (some (.ascii "tok1"))
          else .other (.obj [("arguments", .obj [("rpc-version", .num 17)]),
            ("result", .str "success")]))).sent.map (fun r => r.sessionHeader)
      = [none, some "tok1"])
  ∧ ((Client.new "http://127.0.0.1:9091/transmission/rpc").request .sessionGet
        (some (.sessionGet ⟨none⟩)) SessionGet.decode
        (fun i => if i = 0 then .conflict (some (.ascii "tok1"))
          else .other (.obj [("arguments", .obj [("rpc-version", .num 17)]),
            ("result", .str "success")]))).finalSessionId = some "tok1" :=
  C1_fresh_client_handshake _ _ _ _ _ _ _ rfl rfl rfl

/-- C2: when the daemon answers every attempt with `409` (each carrying
a usable token), `invoke` returns the retries-exhausted error and has
sent exactly `RETRIES` (= 5) HTTP requests. -/
theorem C2_all409_exhausts_budget {β : Type} (c : Client) (m : Method) (args : Option Args)
    (dec : Json → Except String β) (responses : Nat → SendResult β) (t : Nat → String)
    (hconf : ∀ i, i < RETRIES → responses i = .conflict (some (.ascii (t i)))) :
    (c.request m args dec responses).result = .authRetriesExhausted exhaustedMsg
  ∧ (c.request m args dec responses).sent.length = RETRIES := by
  unfold Client.request
  obtain ⟨log', sid', hl, h⟩ := requestLoop_skip c.url
    (TransmissionRequest.serialize ⟨m, args⟩) dec responses t RETRIES 0 0 c.sessionId []
    (fun j hj => by simpa using hconf j hj)
  rw [show RETRIES = 0 + RETRIES from rfl, h]
  simp [requestLoop, hl]

/-- C2 witness: a concrete client against a daemon that always answers
`409` with token `tok`: the exhaustion error is returned after exactly 5
sends. -/
theorem C2_witness :
    ((Client.new "http://127.0.0.1:9091/transmission/rpc").request .sessionGet none
        SessionGet.decode (fun _ => .conflict (some (.ascii "tok")))).result
      = .authRetriesExhausted exhaustedMsg
  ∧ ((Client.new "http://127.0.0.1:9091/transmission/rpc").request .sessionGet none
        SessionGet.decode (fun _ => .conflict (some (.ascii "tok")))).sent.length = RETRIES :=
  C2_all409_exhausts_budget _ _ _ _ _ (fun _ => "tok") (fun _ _ => rfl)

/-- C3: after any run of valid-conflict answers, a transport failure on
attempt `k` or a non-`409` answer whose body does not decode into the
envelope shape is returned at once: the error is the propagated one and
exactly `k + 1` requests were sent, none after the failing one. -/
theorem C3_failures_not_retried {β : Type} (c : Client) (m : Method) (args : Option Args)
    (dec : Json → Except String β) (responses : Nat → SendResult β) (t : Nat → String)
    (k : Nat) (hk : k < RETRIES)
    (hconf : ∀ j, j < k → responses j = .conflict (some (.ascii (t j)))) :
    (∀ e, responses k = .fail e →
      (c.request m args dec responses).result = .transportFailure e
      ∧ (c.request m args dec responses).sent.length = k + 1)
  ∧ (∀ body e, responses k = .other body → decodeEnvelope dec body = .error e →
      (c.request m args dec responses).result = .malformedResponse e
      ∧ (c.request m args dec responses).sent.length = k + 1) := by
  obtain ⟨log', sid', hl, h⟩ := requestLoop_skip c.url
    (TransmissionRequest.serialize ⟨m, args⟩) dec responses t k (RETRIES - k) 0 c.sessionId []
    (fun j hj => by simpa using hconf j hj)
  rw [show RETRIES - k + k = RETRIES by omega, Nat.zero_add] at h
  constructor
  · intro e hfail
    unfold Client.request
    rw [h, show RETRIES - k = (RETRIES - k - 1) + 1 by omega,
      requestLoop_fail _ _ dec responses hfail (RETRIES - k - 1) sid' (log' ++ [])]
    simp [hl]
  · intro body e hbody hdec
    unfold Client.request
    rw [h, show RETRIES - k = (RETRIES - k - 1) + 1 by omega,
      requestLoop_other _ _ dec responses hbody (RETRIES - k - 1) sid' (log' ++ []), hdec]
    simp [hl]

/-- C3 witness: after one handshake conflict, a refused connection on the
second attempt is returned as-is after exactly 2 sends; and a non-`409`
answer whose body is not an envelope is returned as a decode error after
exactly 1 send. -/
theorem C3_witness :
    (((Client.new "http://127.0.0.1:9091/transmission/rpc").request .torrentGet none
        SessionGet.decode (fun i => if i = 0 then .conflict (some (.ascii "t0"))
          else .fail "connection refused")).result
        = .transportFailure "connection refused"
      ∧ ((Client.new "http://127.0.0.1:9091/transmission/rpc").request .torrentGet none
        SessionGet.decode (fun i => if i = 0 then .conflict (some (.ascii "t0"))
          else .fail "connection refused")).sent.length = 2)
  ∧ (((Client.new "http://127.0.0.1:9091/transmission/rpc").request .torrentGet none
        SessionGet.decode (fun _ => .other (.str "<html>not json</html>"))).result
        = .malformedResponse "invalid response envelope"
      ∧ ((Client.new "http://127.0.0.1:9091/transmission/rpc").request .torrentGet none
        SessionGet.decode (fun _ => .other (.str "<html>not json</html>"))).sent.length = 1) :=
  ⟨(C3_failures_not_retried _ _ _ _ _ (fun _ => "t0") 1 (by decide)
      (fun j hj => by interval_cases j; rfl)).1 "connection refused" rfl,
    (C3_failures_not_retried _ _ _ _ _ (fun _ => "t0") 0 (by decide)
      (fun j hj => by omega)).2 (.str "<html>not json</html>") "invalid response envelope"
      rfl rfl⟩

/-- C6: after any run of valid-conflict answers, a non-`409` answer whose
body decodes into the envelope shape is returned as success with the
decoded envelope, whatever its `result` status string holds — the string
is never inspected. -/
theorem C6_result_string_uninterpreted {β : Type} (c : Client) (m : Method) (args : Option Args)
    (dec : Json → Except String β) (responses : Nat → SendResult β) (t : Nat → String)
    (k : Nat) (env : TransmissionResponse β) (body : Json)
    (hk : k < RETRIES)
    (hconf : ∀ j, j < k → responses j = .conflict (some (.ascii (t j))))
    (hbody : responses k = .other body)
    (hdec : decodeEnvelope dec body = .ok env) :
    (c.request m args dec responses).result = .ok env := by
  obtain ⟨log', sid', hl, h⟩ := requestLoop_skip c.url
    (TransmissionRequest.serialize ⟨m, args⟩) dec responses t k (RETRIES - k) 0 c.sessionId []
    (fun j hj => by simpa using hconf j hj)
  rw [show RETRIES - k + k = RETRIES by omega, Nat.zero_add] at h
  unfold Client.request
  rw [h, show RETRIES - k = (RETRIES - k - 1) + 1 by omega,
    requestLoop_other _ _ dec responses hbody (RETRIES - k - 1) sid' (log' ++ []), hdec]

/-- C6 witness: a body whose `result` string is `"definitely not
success"` is still returned as success, with that string passed through
untouched in the decoded envelope. -/
theorem C6_witness :
    ((Client.new "http://127.0.0.1:9091/transmission/rpc").request .sessionGet
        (some (.sessionGet ⟨some [.rpcVersion]⟩)) SessionGet.decode
        (fun i => if i = 0 then .conflict (some (.ascii "tok1"))
          else .other (.obj [("arguments", .obj [("rpc-version", .num 17)]),
            ("result", .str "definitely not success")]))).result
      = .ok ⟨⟨some 17, none⟩, "definitely not success"⟩ :=
  C6_result_string_uninterpreted (Client.new "http://127.0.0.1:9091/transmission/rpc")
    .sessionGet (some (.sessionGet ⟨some [.rpcVersion]⟩)) SessionGet.decode
    (fun i => if i = 0 then .conflict (some (.ascii "tok1"))
      else .other (.obj [("arguments", .obj [("rpc-version", .num 17)]),
        ("result", .str "definitely not success")]))
    (fun _ => "tok1") 1 ⟨⟨some 17, none⟩, "definitely not success"⟩
    (.obj [("arguments", .obj [("rpc-version", .num 17)]),
      ("result", .str "definitely not success")]) (by decide)
    (fun j hj => by interval_cases j; rfl) rfl rfl

/-- C10: the `409` branch is total only when the answer carries a
convertible `X-Transmission-Session-id` header: a `409` with the header
missing, or with a value `to_str` rejects, makes the call panic rather
than return any of the three specified errors; and whenever every `409`
in the trace carries a convertible header, no panic occurs. -/
theorem C10_conflict_header_panic {β : Type} (c : Client) (m : Method) (args : Option Args)
    (dec : Json → Except String β) (responses : Nat → SendResult β) (t : Nat → String)
    (k : Nat) (hk : k < RETRIES)
    (hconf : ∀ j, j < k → responses j = .conflict (some (.ascii (t j))))
    (hbad : responses k = .conflict none ∨ responses k = .conflict (some .invalid)) :
    (c.request m args dec responses).result = .panicked
  ∧ ∀ (responses₂ : Nat → SendResult β),
      (∀ i hv, responses₂ i = .conflict hv → ∃ s, hv = some (.ascii s)) →
      (c.request m args dec responses₂).result ≠ .panicked := by
  constructor
  · obtain ⟨log', sid', hl, h⟩ := requestLoop_skip c.url
      (TransmissionRequest.serialize ⟨m, args⟩) dec responses t k (RETRIES - k) 0 c.sessionId []
      (fun j hj => by simpa using hconf j hj)
    rw [show RETRIES - k + k = RETRIES by omega, Nat.zero_add] at h
    unfold Client.request
    rcases hbad with hb | hb <;>
      rw [h, show RETRIES - k = (RETRIES - k - 1) + 1 by omega,
        requestLoop_badConflict _ _ dec responses hb (by simp) (RETRIES - k - 1) sid'
          (log' ++ [])]
  · intro responses₂ hgood
    unfold Client.request
    exact requestLoop_noPanic _ _ dec responses₂ hgood RETRIES 0 c.sessionId []

/-- C10 witness: a first-attempt `409` with no session header panics; a
daemon whose `409`s always carry a usable token never makes the engine
panic. -/
theorem C10_witness :
    ((Client.new "http://127.0.0.1:9091/transmission/rpc").request .sessionGet none
        SessionGet.decode (fun _ => .conflict none)).result = .panicked
  ∧ ((Client.new "http://127.0.0.1:9091/transmission/rpc").request .sessionGet none
        SessionGet.decode (fun _ => .conflict (some (.ascii "tok")))).result
      ≠ .panicked :=
  ⟨(C10_conflict_header_panic _ _ _ SessionGet.decode _ (fun _ => "") 0 (by decide)
      (fun j hj => by omega) (Or.inl rfl)).1,
    (C10_conflict_header_panic _ _ _ SessionGet.decode (fun _ => .conflict none)
      (fun _ => "") 0 (by decide) (fun j hj => by omega) (Or.inl rfl)).2
      (fun _ => .conflict (some (.ascii "tok")))
      (fun i hv h => ⟨"tok", by injection h with h2; exact h2.symm⟩)⟩

/-- C7 counterexample: the error returned by `invoke` does not carry the
attempted method name — a `session-get` invoke and a `torrent-add`
invoke against an always-`409` daemon yield the very same error value, a
fixed message mentioning only the retry count and no HTTP status. -/
theorem C7_counterexample :
    Method.sessionGet ≠ Method.torrentAdd
  ∧ ((Client.new "http://127.0.0.1:9091/transmission/rpc").request .sessionGet none
        SessionGet.decode (fun _ => .conflict (some (.ascii "tok")))).result
      = ((Client.new "http://127.0.0.1:9091/transmission/rpc").request .torrentAdd none
        SessionGet.decode (fun _ => .conflict (some (.ascii "tok")))).result
  ∧ ((Client.new "http://127.0.0.1:9091/transmission/rpc").request .sessionGet none
        SessionGet.decode (fun _ => .conflict (some (.ascii "tok")))).result
      = .authRetriesExhausted
          "Failed after 5 retries to send request to transmission server" :=
  ⟨by decide, rfl, rfl⟩

/-- C7 (amended): no error carries the attempted method name or the last
HTTP status — the call's outcome is entirely independent of the method
descriptor; the exhaustion error is the fixed format string carrying
only the retry count, and transport/decode errors are propagated
unchanged from the underlying layers. -/
theorem C7_errors_lack_method_context {β : Type} (c : Client) (m₁ m₂ : Method)
    (a₁ a₂ : Option Args) (dec : Json → Except String β) (responses : Nat → SendResult β) :
    (c.request m₁ a₁ dec responses).result = (c.request m₂ a₂ dec responses).result
  ∧ exhaustedMsg = "Failed after 5 retries to send request to transmission server" :=
  ⟨requestLoop_result_congr dec responses RETRIES 0 c.sessionId _ _ _ _ [] [], rfl⟩

/-- C8 counterexample: the retry budget is not a caller-visible
configuration option — construction consumes only the URL (the client
state is exactly that URL plus an empty token), and however the client
is constructed or called, an always-`409` daemon sees exactly the five
sends of the compiled-in constant. -/
theorem C8_counterexample :
    Client.new "http://a" = ⟨"http://a", none⟩
  ∧ ((Client.new "http://a").request .sessionGet none SessionGet.decode
        (fun _ => .conflict (some (.ascii "t")))).sent.length = 5
  ∧ ((Client.new "http://b/other").request .torrentGet
        (some (.torrentGet ⟨none, none⟩)) SessionGet.decode
        (fun _ => .conflict (some (.ascii "t")))).sent.length = 5
  ∧ RETRIES = 5 :=
  ⟨rfl, rfl, rfl, rfl⟩

/-- C8 (amended): client construction requires only the daemon's RPC
endpoint URL, and the retry budget is the fixed policy constant
`RETRIES = 5` compiled into the request loop — it is not overridable by
the caller, there being no configuration option at all beyond the URL. -/
theorem C8_url_only_fixed_budget {β : Type} (url : String) (m : Method) (args : Option Args)
    (dec : Json → Except String β) (responses : Nat → SendResult β) (t : Nat → String)
    (hconf : ∀ i, i < RETRIES → responses i = .conflict (some (.ascii (t i)))) :
    Client.new url = ⟨url, none⟩
  ∧ RETRIES = 5
  ∧ ((Client.new url).request m args dec responses).sent.length = RETRIES := by
  refine ⟨rfl, rfl, ?_⟩
  unfold Client.request
  simp only [Client.new]
  obtain ⟨log', sid', hl, h⟩ := requestLoop_skip url
    (TransmissionRequest.serialize ⟨m, args⟩) dec responses t RETRIES 0 0 none []
    (fun j hj => by simpa using hconf j hj)
  rw [show RETRIES = 0 + RETRIES from rfl, h]
  simp [requestLoop, hl]

/-- C8 witness: a concrete URL-only construction whose invoke performs
exactly the five compiled-in attempts. -/
theorem C8_witness :
    Client.new "http://127.0.0.1:9091/transmission/rpc"
      = ⟨"http://127.0.0.1:9091/transmission/rpc", none⟩
  ∧ RETRIES = 5
  ∧ ((Client.new "http://127.0.0.1:9091/transmission/rpc").request .torrentAdd
        (some (.torrentAdd TorrentAddArgs.default)) SessionGet.decode
        (fun _ => .conflict (some (.ascii "tok")))).sent.length = RETRIES :=
  C8_url_only_fixed_budget _ _ _ _ _ (fun _ => "tok") (fun _ _ => rfl)

end Arta
